import Mathlib

/-!
Verification of the calorie/macro calculator core.

The source is a small TypeScript module exposing `calculateBMR`,
`calculateCalories` and `getGoalCalories`.  We shallowly embed it over ℚ:
JavaScript numbers are modelled as exact rationals, and `Math.round` as
`jsRound x = ⌊x + 1/2⌋`, which rounds half-way values toward positive
infinity exactly as JavaScript does.  Every constant of the source
(activity multipliers, 0.8 deficit, 1.15 surplus, macro percentages) is an
exact decimal rational.  Quantities the source produces with `Math.round`
are typed ℤ; the one quantity it can return unrounded
(`getGoalCalories`'s `calories` for the `maintain` goal) is typed ℚ.
-/

/-- `gender: 'male' | 'female'` from the source's `UserDetails`. -/
inductive Gender where
  | male
  | female
deriving DecidableEq, Repr

/-- `activity_level` union type from the source's `UserDetails`. -/
inductive ActivityLevel where
  | sedentary
  | lightly_active
  | moderately_active
  | very_active
  | extra_active
deriving DecidableEq, Repr

/-- `goalType: 'cut' | 'bulk' | 'maintain'` from `getGoalCalories`. -/
inductive GoalType where
  | cut
  | bulk
  | maintain
deriving DecidableEq, Repr

/-- The `UserDetails` interface: height (cm), weight (kg), age, gender,
activity level.  Numeric fields are JavaScript numbers, modelled as ℚ. -/
structure UserDetails where
  height : ℚ
  weight : ℚ
  age : ℚ
  gender : Gender
  activity_level : ActivityLevel
deriving DecidableEq, Repr

/-- The `CalorieResults` interface.  Every field of the source value is
produced by `Math.round` (or, for `protein_grams`-derived values, integer
arithmetic on rounded values), hence typed ℤ. -/
structure CalorieResults where
  maintenance_calories : ℤ
  cut_calories : ℤ
  bulk_calories : ℤ
  protein_grams : ℤ
  carbs_grams : ℤ
  fat_grams : ℤ
deriving DecidableEq, Repr

/-- The anonymous result record of `getGoalCalories`.  `protein`, `carbs`
and `fat` always pass through `Math.round`; `calories` is returned as the
raw `targetCalories`, which for the `maintain` goal is the unrounded
`maintenance` argument, hence typed ℚ. -/
structure GoalCalorieResult where
  calories : ℚ
  protein : ℤ
  carbs : ℤ
  fat : ℤ
deriving DecidableEq, Repr

/-- JavaScript `Math.round` on exact rationals: `Math.round(x)` returns
`⌊x + 0.5⌋`, i.e. the nearest integer with half-way ties rounded toward
positive infinity (`Math.round(-1.5) = -1`). -/
def jsRound (x : ℚ) : ℤ := ⌊x + 1/2⌋

/-- The `ACTIVITY_MULTIPLIERS` constant table of the source. -/
def ACTIVITY_MULTIPLIERS : ActivityLevel → ℚ
  | .sedentary => 1.2
  | .lightly_active => 1.375
  | .moderately_active => 1.55
  | .very_active => 1.725
  | .extra_active => 1.9

/-- `calculateBMR(weight, height, age, gender)`: the Mifflin-St Jeor
equation, branching on gender, with no rounding. -/
def calculateBMR (weight height age : ℚ) (gender : Gender) : ℚ :=
  match gender with
  | .male => 10 * weight + 6.25 * height - 5 * age + 5
  | .female => 10 * weight + 6.25 * height - 5 * age - 161

/-- The local `bmr` of `calculateCalories`:
`calculateBMR(details.weight, details.height, details.age, details.gender)`. -/
def bmrOf (details : UserDetails) : ℚ :=
  calculateBMR details.weight details.height details.age details.gender

/-- The local `maintenance` of `calculateCalories`:
`Math.round(bmr * ACTIVITY_MULTIPLIERS[details.activity_level])`. -/
def maintenanceOf (details : UserDetails) : ℤ :=
  jsRound (bmrOf details * ACTIVITY_MULTIPLIERS details.activity_level)

/-- The local `cut` of `calculateCalories`: `Math.round(maintenance * 0.8)`. -/
def cutOf (details : UserDetails) : ℤ :=
  jsRound ((maintenanceOf details : ℚ) * 0.8)

/-- The local `bulk` of `calculateCalories`: `Math.round(maintenance * 1.15)`. -/
def bulkOf (details : UserDetails) : ℤ :=
  jsRound ((maintenanceOf details : ℚ) * 1.15)

/-- The local `protein` of `calculateCalories`: `Math.round(details.weight * 2)`. -/
def proteinOf (details : UserDetails) : ℤ :=
  jsRound (details.weight * 2)

/-- The local `fatCalories` of `calculateCalories`: `Math.round(maintenance * 0.25)`. -/
def fatCaloriesOf (details : UserDetails) : ℤ :=
  jsRound ((maintenanceOf details : ℚ) * 0.25)

/-- The local `fat` of `calculateCalories`: `Math.round(fatCalories / 9)`. -/
def fatOf (details : UserDetails) : ℤ :=
  jsRound ((fatCaloriesOf details : ℚ) / 9)

/-- The local `proteinCalories` of `calculateCalories`: `protein * 4`
(integer arithmetic on the already-rounded protein grams). -/
def proteinCaloriesOf (details : UserDetails) : ℤ :=
  proteinOf details * 4

/-- The local `carbCalories` of `calculateCalories`:
`maintenance - proteinCalories - fatCalories` (a plain difference of
already-rounded integers, no clamping). -/
def carbCaloriesOf (details : UserDetails) : ℤ :=
  maintenanceOf details - proteinCaloriesOf details - fatCaloriesOf details

/-- The local `carbs` of `calculateCalories`: `Math.round(carbCalories / 4)`. -/
def carbsOf (details : UserDetails) : ℤ :=
  jsRound ((carbCaloriesOf details : ℚ) / 4)

/-- `calculateCalories(details)`: assembles the returned record from the
local constants above, exactly mirroring the source's return statement. -/
def calculateCalories (details : UserDetails) : CalorieResults :=
  { maintenance_calories := maintenanceOf details
    cut_calories := cutOf details
    bulk_calories := bulkOf details
    protein_grams := proteinOf details
    carbs_grams := carbsOf details
    fat_grams := fatOf details }

/-- `getGoalCalories(maintenance, goalType)`: `targetCalories` starts as
`maintenance` and is reassigned to `Math.round(maintenance * 0.8)` for
`cut` and `Math.round(maintenance * 1.15)` for `bulk`; the three macros
are rounded fractions of `targetCalories`. -/
def getGoalCalories (maintenance : ℚ) (goalType : GoalType) : GoalCalorieResult :=
  let targetCalories : ℚ :=
    match goalType with
    | .cut => (jsRound (maintenance * 0.8) : ℚ)
    | .bulk => (jsRound (maintenance * 1.15) : ℚ)
    | .maintain => maintenance
  { calories := targetCalories
    protein := jsRound (targetCalories * 0.3 / 4)
    carbs := jsRound (targetCalories * 0.45 / 4)
    fat := jsRound (targetCalories * 0.25 / 9) }

/-- The §6 validation contract: height 100-250 cm, weight 30-300 kg,
age 13-100 (gender and activity level are already exact by typing). -/
def ValidDetails (details : UserDetails) : Prop :=
  100 ≤ details.height ∧ details.height ≤ 250 ∧
  30 ≤ details.weight ∧ details.weight ≤ 300 ∧
  13 ≤ details.age ∧ details.age ≤ 100

/-- Evaluation lemma for `jsRound` at a known integer answer. -/
theorem jsRound_eq (x : ℚ) (n : ℤ) (h1 : (n : ℚ) ≤ x + 1/2) (h2 : x + 1/2 < n + 1) :
    jsRound x = n :=
  Int.floor_eq_iff.mpr ⟨h1, h2⟩

/-- The spec's §8 worked example input: male, 30 y, 80 kg, 180 cm,
moderately active (fields in declaration order height, weight, age). -/
def dM : UserDetails := ⟨180, 80, 30, .male, .moderately_active⟩

/-- A pathological (out-of-validation-range) input driving `carbCalories`
to the negative half-tie value −6: height 2 cm, weight 10 kg, age 7,
male, sedentary. -/
def dP : UserDetails := ⟨2, 10, 7, .male, .sedentary⟩

theorem maintenance_dM : maintenanceOf dM = 2759 := by
  norm_num [maintenanceOf, bmrOf, calculateBMR, ACTIVITY_MULTIPLIERS, dM, jsRound,
    Int.floor_eq_iff]

theorem cut_dM : cutOf dM = 2207 := by
  rw [cutOf, maintenance_dM]
  norm_num [jsRound, Int.floor_eq_iff]

theorem bulk_dM : bulkOf dM = 3173 := by
  rw [bulkOf, maintenance_dM]
  norm_num [jsRound, Int.floor_eq_iff]

theorem protein_dM : proteinOf dM = 160 := by
  norm_num [proteinOf, dM, jsRound, Int.floor_eq_iff]

theorem fatCalories_dM : fatCaloriesOf dM = 690 := by
  rw [fatCaloriesOf, maintenance_dM]
  norm_num [jsRound, Int.floor_eq_iff]

theorem fat_dM : fatOf dM = 77 := by
  rw [fatOf, fatCalories_dM]
  norm_num [jsRound, Int.floor_eq_iff]

theorem carbCalories_dM : carbCaloriesOf dM = 1429 := by
  rw [carbCaloriesOf, proteinCaloriesOf, maintenance_dM, protein_dM, fatCalories_dM]
  norm_num

theorem carbs_dM : carbsOf dM = 357 := by
  rw [carbsOf, carbCalories_dM]
  norm_num [jsRound, Int.floor_eq_iff]

theorem calculateCalories_dM :
    calculateCalories dM = ⟨2759, 2207, 3173, 160, 357, 77⟩ := by
  rw [calculateCalories, maintenance_dM, cut_dM, bulk_dM, protein_dM, carbs_dM, fat_dM]

theorem maintenance_dP : maintenanceOf dP = 99 := by
  norm_num [maintenanceOf, bmrOf, calculateBMR, ACTIVITY_MULTIPLIERS, dP, jsRound,
    Int.floor_eq_iff]

theorem protein_dP : proteinOf dP = 20 := by
  norm_num [proteinOf, dP, jsRound, Int.floor_eq_iff]

theorem fatCalories_dP : fatCaloriesOf dP = 25 := by
  rw [fatCaloriesOf, maintenance_dP]
  norm_num [jsRound, Int.floor_eq_iff]

theorem carbCalories_dP : carbCaloriesOf dP = -6 := by
  rw [carbCaloriesOf, proteinCaloriesOf, maintenance_dP, protein_dP, fatCalories_dP]
  norm_num

theorem carbs_dP : carbsOf dP = -1 := by
  rw [carbsOf, carbCalories_dP]
  norm_num [jsRound, Int.floor_eq_iff]

/-- C1 (counterexample): on the spec's worked input (male, 30 y, 80 kg,
180 cm, moderately active) the code's maintenance is 2759, not the 2798
the claim asserts — the spec's own BMR arithmetic (1805) contradicts its
formula, which gives 10·80 + 6.25·180 − 5·30 + 5 = 1780. -/
theorem C1_counterexample :
    (calculateCalories dM).maintenance_calories ≠ 2798 := by
  rw [calculateCalories_dM]
  norm_num

/-- C1 (amended): on the worked input the code returns BMR 1780,
maintenance 2759, cut 2207, bulk 3173, protein 160 g, fat 77 g (via
fat calories 690) and carbs 357 g (via carb calories 1429). -/
theorem C1_worked_example :
    calculateBMR 80 180 30 Gender.male = 1780 ∧
    calculateCalories dM = ⟨2759, 2207, 3173, 160, 357, 77⟩ ∧
    fatCaloriesOf dM = 690 ∧
    carbCaloriesOf dM = 1429 := by
  refine ⟨?_, calculateCalories_dM, fatCalories_dM, carbCalories_dM⟩
  norm_num [calculateBMR]

/-- C2: `calculateBMR` is exactly the Mifflin-St Jeor expression for each
gender, unrounded; totality over the numeric inputs is the type
`ℚ → ℚ → ℚ → Gender → ℚ` itself. -/
theorem C2_bmr_formula :
    ∀ weight height age : ℚ,
      calculateBMR weight height age Gender.male
        = 10 * weight + 6.25 * height - 5 * age + 5 ∧
      calculateBMR weight height age Gender.female
        = 10 * weight + 6.25 * height - 5 * age - 161 :=
  fun _ _ _ => ⟨rfl, rfl⟩

/-- C3: the activity-multiplier table is exactly the five listed
constants, and for every input `calculateCalories` takes
maintenance = round(bmr × multiplier), cut = round(maintenance × 0.8),
bulk = round(maintenance × 1.15). -/
theorem C3_maintenance_cut_bulk :
    (ACTIVITY_MULTIPLIERS .sedentary = 1.2 ∧
     ACTIVITY_MULTIPLIERS .lightly_active = 1.375 ∧
     ACTIVITY_MULTIPLIERS .moderately_active = 1.55 ∧
     ACTIVITY_MULTIPLIERS .very_active = 1.725 ∧
     ACTIVITY_MULTIPLIERS .extra_active = 1.9) ∧
    ∀ d : UserDetails,
      (calculateCalories d).maintenance_calories
        = jsRound (calculateBMR d.weight d.height d.age d.gender
            * ACTIVITY_MULTIPLIERS d.activity_level) ∧
      (calculateCalories d).cut_calories
        = jsRound (((calculateCalories d).maintenance_calories : ℚ) * 0.8) ∧
      (calculateCalories d).bulk_calories
        = jsRound (((calculateCalories d).maintenance_calories : ℚ) * 1.15) :=
  ⟨⟨rfl, rfl, rfl, rfl, rfl⟩, fun _ => ⟨rfl, rfl, rfl⟩⟩

/-- C4: the macro split of `calculateCalories` — protein is
round(weight × 2); fat grams re-round the already-rounded fat calories,
round(round(maintenance × 0.25) / 9); carb calories are the plain
unclamped remainder maintenance − protein×4 − fat calories, and
carbs = round(carbCalories / 4) can indeed be negative (it is −1 on the
input `dP`) and is returned as-is. -/
theorem C4_macro_split :
    (∀ d : UserDetails,
      (calculateCalories d).protein_grams = jsRound (d.weight * 2) ∧
      (calculateCalories d).fat_grams
        = jsRound ((jsRound (((calculateCalories d).maintenance_calories : ℚ) * 0.25) : ℚ) / 9) ∧
      (calculateCalories d).carbs_grams
        = jsRound ((((calculateCalories d).maintenance_calories
            - (calculateCalories d).protein_grams * 4
            - jsRound (((calculateCalories d).maintenance_calories : ℚ) * 0.25) : ℤ) : ℚ) / 4)) ∧
    ∃ d : UserDetails, (calculateCalories d).carbs_grams < 0 := by
  refine ⟨fun d => ⟨rfl, rfl, rfl⟩, ⟨dP, ?_⟩⟩
  show carbsOf dP < 0
  rw [carbs_dP]
  norm_num

/-- The value the source's mutable `targetCalories` holds after the
`if`/`else if` chain of `getGoalCalories`, per goal. -/
def goalTarget (maintenance : ℚ) : GoalType → ℚ
  | .cut => (jsRound (maintenance * 0.8) : ℚ)
  | .bulk => (jsRound (maintenance * 1.15) : ℚ)
  | .maintain => maintenance

theorem getGoalCalories_def (m : ℚ) (g : GoalType) :
    getGoalCalories m g =
      { calories := goalTarget m g
        protein := jsRound (goalTarget m g * 0.3 / 4)
        carbs := jsRound (goalTarget m g * 0.45 / 4)
        fat := jsRound (goalTarget m g * 0.25 / 9) } := by
  cases g <;> rfl

theorem target_cut_2500 : goalTarget 2500 GoalType.cut = 2000 := by
  have h : jsRound ((2500 : ℚ) * 0.8) = 2000 := by norm_num [jsRound, Int.floor_eq_iff]
  show ((jsRound ((2500 : ℚ) * 0.8) : ℤ) : ℚ) = 2000
  rw [h]; norm_num

theorem target_bulk_2500 : goalTarget 2500 GoalType.bulk = 2875 := by
  have h : jsRound ((2500 : ℚ) * 1.15) = 2875 := by norm_num [jsRound, Int.floor_eq_iff]
  show ((jsRound ((2500 : ℚ) * 1.15) : ℤ) : ℚ) = 2875
  rw [h]; norm_num

theorem goal2500_maintain : getGoalCalories 2500 GoalType.maintain = ⟨2500, 188, 281, 69⟩ := by
  rw [getGoalCalories_def]
  have ht : goalTarget 2500 GoalType.maintain = 2500 := rfl
  rw [ht]
  norm_num [jsRound, Int.floor_eq_iff, GoalCalorieResult.mk.injEq]

theorem goal2500_cut : getGoalCalories 2500 GoalType.cut = ⟨2000, 150, 225, 56⟩ := by
  rw [getGoalCalories_def, target_cut_2500]
  norm_num [jsRound, Int.floor_eq_iff, GoalCalorieResult.mk.injEq]

theorem goal2500_bulk : getGoalCalories 2500 GoalType.bulk = ⟨2875, 216, 323, 80⟩ := by
  rw [getGoalCalories_def, target_bulk_2500]
  norm_num [jsRound, Int.floor_eq_iff, GoalCalorieResult.mk.injEq]

/-- C5 (counterexample): the claim asserts `getGoalCalories(2500,'bulk')`
has carbs = 324, but the code rounds 2875 × 0.45 / 4 = 323.4375 to 323. -/
theorem C5_counterexample : (getGoalCalories 2500 GoalType.bulk).carbs ≠ 324 := by
  rw [goal2500_bulk]
  norm_num

/-- C5 (amended): `getGoalCalories` sets the target to maintenance /
round(maintenance × 0.8) / round(maintenance × 1.15) per goal, rounds
each macro from the unrounded fraction of the target, and on maintenance
2500 returns exactly {2500, 188, 281, 69} for maintain,
{2000, 150, 225, 56} for cut, and {2875, 216, **323**, 80} for bulk
(the claim's 324 corrected to 323). -/
theorem C5_goal_calories :
    (∀ m : ℚ,
      (getGoalCalories m GoalType.maintain).calories = m ∧
      (getGoalCalories m GoalType.cut).calories = (jsRound (m * 0.8) : ℚ) ∧
      (getGoalCalories m GoalType.bulk).calories = (jsRound (m * 1.15) : ℚ) ∧
      ∀ g : GoalType,
        (getGoalCalories m g).protein
          = jsRound ((getGoalCalories m g).calories * 0.3 / 4) ∧
        (getGoalCalories m g).fat
          = jsRound ((getGoalCalories m g).calories * 0.25 / 9) ∧
        (getGoalCalories m g).carbs
          = jsRound ((getGoalCalories m g).calories * 0.45 / 4)) ∧
    getGoalCalories 2500 GoalType.maintain = ⟨2500, 188, 281, 69⟩ ∧
    getGoalCalories 2500 GoalType.cut = ⟨2000, 150, 225, 56⟩ ∧
    getGoalCalories 2500 GoalType.bulk = ⟨2875, 216, 323, 80⟩ :=
  ⟨fun _ => ⟨rfl, rfl, rfl, fun _ => ⟨rfl, rfl, rfl⟩⟩,
   goal2500_maintain, goal2500_cut, goal2500_bulk⟩

/-- C6 (counterexample): for the non-integer maintenance 1/2 and the
`maintain` goal, the returned `calories` field is the unrounded 1/2,
which equals no integer — so not all four fields are integers. -/
theorem C6_counterexample :
    ¬ ∃ z : ℤ, (getGoalCalories (1/2) GoalType.maintain).calories = (z : ℚ) := by
  rintro ⟨z, hz⟩
  have hc : (getGoalCalories (1/2 : ℚ) GoalType.maintain).calories = 1/2 := rfl
  rw [hc] at hz
  have h2 : (2 : ℚ) * (z : ℚ) = 1 := by rw [← hz]; norm_num
  have h3 : (2 : ℤ) * z = 1 := by exact_mod_cast h2
  omega

/-- C6 (amended): `protein`, `carbs` and `fat` are always integers (they
pass through `Math.round`, hence are typed ℤ here), and `calories` is an
integer whenever the goal is `cut` or `bulk`; for `maintain` it equals
the maintenance argument unrounded, hence is an integer exactly when the
input is. -/
theorem C6_integer_fields (m : ℚ) (g : GoalType)
    (h : g ≠ GoalType.maintain ∨ m.den = 1) :
    ∃ z : ℤ, (getGoalCalories m g).calories = (z : ℚ) := by
  cases g with
  | cut => exact ⟨jsRound (m * 0.8), rfl⟩
  | bulk => exact ⟨jsRound (m * 1.15), rfl⟩
  | maintain =>
      rcases h with h | h
      · exact absurd rfl h
      · exact ⟨m.num, ((Rat.den_eq_one_iff m).mp h).symm⟩

theorem C6_integer_fields_witness :
    ∃ z : ℤ, (getGoalCalories 2500 GoalType.cut).calories = (z : ℚ) :=
  C6_integer_fields 2500 GoalType.cut (Or.inl (by decide))

/-- Under the §6 validation ranges the maintenance calories are at least
317 (worst case: female, 30 kg, 100 cm, age 100, sedentary gives
BMR 264 and round(264 × 1.2) = 317). -/
theorem valid_maintenance_ge (d : UserDetails) (h : ValidDetails d) :
    317 ≤ maintenanceOf d := by
  obtain ⟨dh, dw, da, dg, dl⟩ := d
  obtain ⟨hh1, hh2, hw1, hw2, ha1, ha2⟩ := h
  simp only at hh1 hh2 hw1 hw2 ha1 ha2
  have hb : (264 : ℚ) ≤ bmrOf ⟨dh, dw, da, dg, dl⟩ := by
    cases dg <;> simp only [bmrOf, calculateBMR] <;> linarith
  have hm : (1.2 : ℚ) ≤ ACTIVITY_MULTIPLIERS dl := by
    cases dl <;> norm_num [ACTIVITY_MULTIPLIERS]
  have hx : (316.8 : ℚ) ≤ bmrOf ⟨dh, dw, da, dg, dl⟩ * ACTIVITY_MULTIPLIERS dl := by
    calc (316.8 : ℚ) = 264 * 1.2 := by norm_num
    _ ≤ bmrOf ⟨dh, dw, da, dg, dl⟩ * ACTIVITY_MULTIPLIERS dl :=
        mul_le_mul hb hm (by norm_num) (le_trans (by norm_num) hb)
  show (317 : ℤ) ≤ jsRound (bmrOf ⟨dh, dw, da, dg, dl⟩ * ACTIVITY_MULTIPLIERS dl)
  unfold jsRound
  rw [Int.le_floor]
  push_cast
  linarith

/-- C7: for every range-valid `UserDetails` with positive maintenance,
the strict ordering cut < maintenance < bulk holds (the six fields being
integers is the ℤ typing of `CalorieResults`, forced by every field
passing through `Math.round`). -/
theorem C7_ordering (d : UserDetails) (h : ValidDetails d)
    (hpos : 0 < (calculateCalories d).maintenance_calories) :
    (calculateCalories d).cut_calories < (calculateCalories d).maintenance_calories ∧
    (calculateCalories d).maintenance_calories < (calculateCalories d).bulk_calories := by
  have h317 : 317 ≤ maintenanceOf d := valid_maintenance_ge d h
  have hmq : (317 : ℚ) ≤ (maintenanceOf d : ℚ) := by exact_mod_cast h317
  constructor
  · show cutOf d < maintenanceOf d
    have h1 : (cutOf d : ℚ) ≤ (maintenanceOf d : ℚ) * 0.8 + 1/2 := Int.floor_le _
    have h2 : (cutOf d : ℚ) < (maintenanceOf d : ℚ) := by linarith
    exact_mod_cast h2
  · show maintenanceOf d < bulkOf d
    have h1 : (maintenanceOf d : ℚ) * 1.15 + 1/2 - 1 < (bulkOf d : ℚ) :=
      Int.sub_one_lt_floor _
    have h2 : (maintenanceOf d : ℚ) < (bulkOf d : ℚ) := by linarith
    exact_mod_cast h2

theorem valid_dM : ValidDetails dM := by
  refine ⟨?_, ?_, ?_, ?_, ?_, ?_⟩ <;> norm_num [dM]

theorem pos_dM : 0 < (calculateCalories dM).maintenance_calories := by
  show 0 < maintenanceOf dM
  rw [maintenance_dM]
  norm_num

theorem C7_ordering_witness :
    ValidDetails dM ∧ 0 < (calculateCalories dM).maintenance_calories ∧
    ((calculateCalories dM).cut_calories < (calculateCalories dM).maintenance_calories ∧
     (calculateCalories dM).maintenance_calories < (calculateCalories dM).bulk_calories) :=
  ⟨valid_dM, pos_dM, C7_ordering dM valid_dM pos_dM⟩

/-- C8: holding height, age, gender and activity level fixed, maintenance
calories are monotone non-decreasing in weight. -/
theorem C8_weight_monotone (d d' : UserDetails) (hh : d.height = d'.height)
    (ha : d.age = d'.age) (hg : d.gender = d'.gender)
    (hl : d.activity_level = d'.activity_level) (hw : d.weight ≤ d'.weight) :
    (calculateCalories d).maintenance_calories
      ≤ (calculateCalories d').maintenance_calories := by
  obtain ⟨h1, w1, a1, g1, l1⟩ := d
  obtain ⟨h2, w2, a2, g2, l2⟩ := d'
  simp only at hh ha hg hl hw
  subst hh; subst ha; subst hg; subst hl
  have hb : bmrOf ⟨h1, w1, a1, g1, l1⟩ ≤ bmrOf ⟨h1, w2, a1, g1, l1⟩ := by
    cases g1 <;> simp only [bmrOf, calculateBMR] <;> linarith
  have hm0 : (0 : ℚ) ≤ ACTIVITY_MULTIPLIERS l1 := by
    cases l1 <;> norm_num [ACTIVITY_MULTIPLIERS]
  show maintenanceOf ⟨h1, w1, a1, g1, l1⟩ ≤ maintenanceOf ⟨h1, w2, a1, g1, l1⟩
  unfold maintenanceOf jsRound
  apply Int.floor_le_floor
  have := mul_le_mul_of_nonneg_right hb hm0
  linarith

theorem C8_weight_monotone_witness :
    (calculateCalories dM).maintenance_calories
      ≤ (calculateCalories ⟨180, 90, 30, .male, .moderately_active⟩).maintenance_calories :=
  C8_weight_monotone dM ⟨180, 90, 30, .male, .moderately_active⟩
    rfl rfl rfl rfl (by norm_num [dM])

/-- C9: both entry points are pure, deterministic functions of their
arguments — equal inputs give equal outputs (the embedding has no state
at all, so this is function congruence). -/
theorem C9_deterministic :
    (∀ d d' : UserDetails, d = d' → calculateCalories d = calculateCalories d') ∧
    (∀ (m m' : ℚ) (g g' : GoalType), m = m' → g = g' →
      getGoalCalories m g = getGoalCalories m' g') :=
  ⟨fun _ _ h => h ▸ rfl, fun _ _ _ _ hm hg => hm ▸ hg ▸ rfl⟩

theorem C9_deterministic_witness :
    calculateCalories dM = calculateCalories dM ∧
    getGoalCalories 2500 GoalType.cut = getGoalCalories 2500 GoalType.cut :=
  ⟨C9_deterministic.1 dM dM rfl,
   C9_deterministic.2 2500 2500 GoalType.cut GoalType.cut rfl rfl⟩

/-- C10: `jsRound` (the model of JavaScript `Math.round`, used for every
rounding in both functions) sends every half-way value z + 1/2 to z + 1,
i.e. ties round toward positive infinity; consequently on the input `dP`,
where carbCalories = −6 and carbCalories/4 = −1.5, the returned carbs
are −1 — the negative tie rounds toward zero, not away from it. -/
theorem C10_round_half_up :
    (∀ z : ℤ, jsRound ((z : ℚ) + 1/2) = z + 1) ∧
    carbCaloriesOf dP = -6 ∧
    (calculateCalories dP).carbs_grams = -1 := by
  refine ⟨fun z => ?_, carbCalories_dP, carbs_dP⟩
  unfold jsRound
  rw [show ((z : ℚ) + 1/2 + 1/2) = ((z + 1 : ℤ) : ℚ) by push_cast; ring]
  exact Int.floor_intCast _
